import Mathlib

/-!
Shallow embedding of `descwl/model.py` (WeakLensingDeblending): the `Galaxy`
entity and the `GalaxyBuilder.from_catalog` factory.  Numeric values are
modelled as rationals; the external collaborators (`math.sqrt`,
`math.radians`, `survey.get_flux`, galsim profile constructors) are opaque:
the two math functions are passed as an explicit `MathOps` record, the survey
flux normalizer is the builder's `survey` field, and galsim calls build a
symbolic `GSProfile` term.  Python exceptions become an explicit error type
threaded through `Except`; Python division raises on a zero denominator.
-/

/-- Python exception outcomes relevant to `model.py`: `RuntimeError`,
`KeyError` (missing catalog field), `ZeroDivisionError`, `AssertionError`
(the `assert` on position angles) and `TypeError` (arithmetic on `None`). -/
inductive PyError where
  | runtimeError (msg : String)
  | keyError (key : String)
  | zeroDivisionError
  | assertionError (msg : String)
  | typeError
deriving DecidableEq, Repr

/-- Symbolic galsim profile terms: the constructors and operators of the
rendering library that `model.py` invokes (`Exponential`, `DeVaucouleurs`,
`Gaussian`, `.shear`, `Add`, `.shift`). -/
inductive GSProfile where
  | exponential (flux half_light_radius : ℚ)
  | deVaucouleurs (flux half_light_radius : ℚ)
  | gaussian (flux sigma : ℚ)
  | shear (p : GSProfile) (q beta : ℚ)
  | add (components : List GSProfile)
  | shift (p : GSProfile) (dx dy : ℚ)

/-- State of a `Galaxy` object after `Galaxy.__init__` has run: the four
stored attributes plus the assembled composite model. -/
structure Galaxy where
  identifier : ℚ
  redshift : ℚ
  dx_arcsecs : ℚ
  dy_arcsecs : ℚ
  model : GSProfile

/-- Successful outcomes of `from_catalog`: a built `Galaxy`, or the
not-visible signal (the source returns the `SourceNotVisible` class instead
of raising it). -/
inductive BuildResult where
  | galaxy (g : Galaxy)
  | notVisible

/-- A catalog row (`astropy.table.Row`): a mapping from field name to value;
`none` models an absent field, whose lookup raises `KeyError`. -/
abbrev Entry := String → Option ℚ

/-- Opaque external math functions used by `from_catalog`. -/
structure MathOps where
  sqrt : ℚ → ℚ
  radians : ℚ → ℚ

def fldFluxnormDisk : String := "fluxnorm_disk"

def fldFluxnormBulge : String := "fluxnorm_bulge"

def fldFluxnormAgn : String := "fluxnorm_agn"

def fldPaDisk : String := "pa_disk"

def fldPaBulge : String := "pa_bulge"

def fldAD : String := "a_d"

def fldBD : String := "b_d"

def fldAB : String := "a_b"

def fldBB : String := "b_b"

def fldId : String := "id"

def fldRedshift : String := "redshift"

def abSuffix : String := "_ab"

def missingBandMsg : String := "Catalog entry is missing %s-band AB flux value."

def mustBuildMsg : String := "Must build at least one galaxy component."

def assertBetaMsg : String := "Sersic components have different beta."

/-- Sigma of the narrow Gaussian standing in for a delta-function AGN
component (`1e-8` in the source). -/
def agnSigma : ℚ := 1 / 100000000

/-- Lookup `entry[key]`: raises `KeyError` when the field is absent. -/
def getField (entry : Entry) (key : String) : Except PyError ℚ :=
  match entry key with
  | some v => Except.ok v
  | none => Except.error (PyError.keyError key)

/-- Python division `x / y`: raises `ZeroDivisionError` when `y = 0`. -/
def pydiv (x y : ℚ) : Except PyError ℚ :=
  if y = 0 then Except.error PyError.zeroDivisionError else Except.ok (x / y)

/-- Read an optional constructor argument that the body is about to use in
arithmetic or as a galsim parameter: a `None` there raises `TypeError`. -/
def reqArg (x : Option ℚ) : Except PyError ℚ :=
  match x with
  | some v => Except.ok v
  | none => Except.error PyError.typeError

/-- Embedding of `Galaxy.__init__` (model.py lines 44-69): store identifier,
redshift and centroid offsets, append an `Exponential` (sheared), a
`DeVaucouleurs` (sheared) and a narrow `Gaussian` to `components` exactly
when the corresponding flux argument is strictly positive, then `Add` the
components and `shift` by the offsets. -/
def galaxyInit (identifier redshift dx_arcsecs dy_arcsecs : ℚ)
    (beta_radians : Option ℚ)
    (disk_flux : ℚ) (disk_hlr_arcsecs disk_q : Option ℚ)
    (bulge_flux : ℚ) (bulge_hlr_arcsecs bulge_q : Option ℚ)
    (agn_flux : ℚ) : Except PyError Galaxy := do
  let diskComps ←
    if 0 < disk_flux then do
      let hlr ← reqArg disk_hlr_arcsecs
      let q ← reqArg disk_q
      let beta ← reqArg beta_radians
      pure [GSProfile.shear (GSProfile.exponential disk_flux hlr) q beta]
    else pure []
  let bulgeComps ←
    if 0 < bulge_flux then do
      let hlr ← reqArg bulge_hlr_arcsecs
      let q ← reqArg bulge_q
      let beta ← reqArg beta_radians
      pure [GSProfile.shear (GSProfile.deVaucouleurs bulge_flux hlr) q beta]
    else pure []
  let agnComps := if 0 < agn_flux then [GSProfile.gaussian agn_flux agnSigma] else []
  pure { identifier := identifier, redshift := redshift,
         dx_arcsecs := dx_arcsecs, dy_arcsecs := dy_arcsecs,
         model := GSProfile.shift (GSProfile.add (diskComps ++ bulgeComps ++ agnComps))
           dx_arcsecs dy_arcsecs }

/-- State of a `GalaxyBuilder` object: the survey flux normalizer
(`survey.get_flux`, opaque) and the four configuration flags. -/
structure GalaxyBuilder where
  survey : ℚ → ℚ
  no_disk : Bool
  no_bulge : Bool
  no_agn : Bool
  verbose_model : Bool

/-- Embedding of `GalaxyBuilder.__init__` (lines 81-88): raise `RuntimeError`
when all three suppression flags are set, otherwise store the fields. -/
def galaxyBuilderInit (survey : ℚ → ℚ)
    (no_disk no_bulge no_agn verbose_model : Bool) :
    Except PyError GalaxyBuilder :=
  if no_disk && no_bulge && no_agn then
    Except.error (PyError.runtimeError mustBuildMsg)
  else
    Except.ok { survey := survey, no_disk := no_disk, no_bulge := no_bulge,
                no_agn := no_agn, verbose_model := verbose_model }

/-- Flux-splitting phase of `from_catalog` (lines 120-123): sum the three
catalog flux normalizations and give each unsuppressed component the flux
`fluxnorm / total_fluxnorm * total_flux`, suppressed components `0`. -/
def resolvedFluxes (self : GalaxyBuilder) (entry : Entry) (total_flux : ℚ) :
    Except PyError (ℚ × ℚ × ℚ) := do
  let fnd ← getField entry fldFluxnormDisk
  let fnb ← getField entry fldFluxnormBulge
  let fna ← getField entry fldFluxnormAgn
  let total_fluxnorm := fnd + fnb + fna
  let disk_flux ←
    if self.no_disk then pure (0 : ℚ) else do
      let r ← pydiv fnd total_fluxnorm
      pure (r * total_flux)
  let bulge_flux ←
    if self.no_bulge then pure (0 : ℚ) else do
      let r ← pydiv fnb total_fluxnorm
      pure (r * total_flux)
  let agn_flux ←
    if self.no_agn then pure (0 : ℚ) else do
      let r ← pydiv fna total_fluxnorm
      pure (r * total_flux)
  pure (disk_flux, bulge_flux, agn_flux)

/-- Position-angle resolution phase of `from_catalog` (lines 128-136): use
`radians(pa_disk)` when the disk is flux-positive, asserting
`pa_disk == pa_bulge` when the bulge is too; `radians(pa_bulge)` when only
the bulge is flux-positive; `None` otherwise. -/
def resolveBeta (mops : MathOps) (entry : Entry) (disk_flux bulge_flux : ℚ) :
    Except PyError (Option ℚ) :=
  if 0 < disk_flux then do
    let pa_d ← getField entry fldPaDisk
    if 0 < bulge_flux then do
      let pa_b ← getField entry fldPaBulge
      if pa_d = pa_b then pure (some (mops.radians pa_d))
      else Except.error (PyError.assertionError assertBetaMsg)
    else pure (some (mops.radians pa_d))
  else if 0 < bulge_flux then do
    let pa_b ← getField entry fldPaBulge
    pure (some (mops.radians pa_b))
  else pure none

/-- Disk shape phase of `from_catalog` (lines 138-143): when the disk is
flux-positive read `a_d`, `b_d` and derive `hlr = sqrt(a_d*b_d)`,
`q = b_d/a_d`; otherwise both are `None` and no field is read. -/
def diskShape (mops : MathOps) (entry : Entry) (disk_flux : ℚ) :
    Except PyError (Option ℚ × Option ℚ) :=
  if 0 < disk_flux then do
    let a_d ← getField entry fldAD
    let b_d ← getField entry fldBD
    let q ← pydiv b_d a_d
    pure (some (mops.sqrt (a_d * b_d)), some q)
  else pure (none, none)

/-- Bulge shape phase of `from_catalog` (lines 144-150): when the bulge is
flux-positive read `a_b`, `b_b`, derive `hlr = sqrt(a_b*b_b)`,
`q = b_b/a_b`, and also evaluate the unused `bulge_beta =
radians(pa_bulge)` (line 148, which reads `pa_bulge`); otherwise both are
`None` and no field is read. -/
def bulgeShape (mops : MathOps) (entry : Entry) (bulge_flux : ℚ) :
    Except PyError (Option ℚ × Option ℚ) :=
  if 0 < bulge_flux then do
    let a_b ← getField entry fldAB
    let b_b ← getField entry fldBB
    let q ← pydiv b_b a_b
    let pa_b ← getField entry fldPaBulge
    let _bulge_beta := mops.radians pa_b
    pure (some (mops.sqrt (a_b * b_b)), some q)
  else pure (none, none)

/-- Embedding of `GalaxyBuilder.from_catalog` (lines 90-170).  The band
magnitude lookup catches `KeyError` and re-raises `RuntimeError` with the
literal (uninterpolated) message; then flux splitting, the visibility check
(`return SourceNotVisible` when the resolved fluxes sum to zero), position
angle resolution, shape derivation, the `id`/`redshift` reads, and the
`Galaxy` construction.  The verbose print is a pure side channel and is not
modelled. -/
def from_catalog (self : GalaxyBuilder) (mops : MathOps) (entry : Entry)
    (dx_arcsecs dy_arcsecs : ℚ) (filter_band : String) :
    Except PyError BuildResult := do
  let ab_magnitude ←
    match entry (filter_band ++ abSuffix) with
    | some v => Except.ok v
    | none => Except.error (PyError.runtimeError missingBandMsg)
  let total_flux := self.survey ab_magnitude
  let fluxes ← resolvedFluxes self entry total_flux
  let disk_flux := fluxes.1
  let bulge_flux := fluxes.2.1
  let agn_flux := fluxes.2.2
  if disk_flux + bulge_flux + agn_flux = 0 then
    pure BuildResult.notVisible
  else do
    let beta_radians ← resolveBeta mops entry disk_flux bulge_flux
    let dshape ← diskShape mops entry disk_flux
    let bshape ← bulgeShape mops entry bulge_flux
    let identifier ← getField entry fldId
    let redshift ← getField entry fldRedshift
    let g ← galaxyInit identifier redshift dx_arcsecs dy_arcsecs beta_radians
      disk_flux dshape.1 dshape.2 bulge_flux bshape.1 bshape.2 agn_flux
    pure (BuildResult.galaxy g)

/-- Method-call view of `from_catalog`: the returned value together with the
builder state after the call.  The method body contains no assignment to
`self`, so the post-state is the pre-state. -/
def from_catalog_call (self : GalaxyBuilder) (mops : MathOps) (entry : Entry)
    (dx_arcsecs dy_arcsecs : ℚ) (filter_band : String) :
    Except PyError BuildResult × GalaxyBuilder :=
  (from_catalog self mops entry dx_arcsecs dy_arcsecs filter_band, self)

/-- Build a concrete catalog row from an association list. -/
def mkEntry : List (String × ℚ) → Entry
  | [] => fun _ => none
  | (k, v) :: rest => fun key => if key = k then some v else mkEntry rest key

/-- Concrete stand-in for the opaque math functions, used in witnesses. -/
def idMathOps : MathOps := { sqrt := fun x => x, radians := fun x => x }


def rBand : String := "r"

def uBand : String := "u"

/-- Builder with no suppression, whose survey yields 1000 detected electrons
for any magnitude; used by witnesses. -/
def wBuilder : GalaxyBuilder :=
  { survey := fun _ => 1000, no_disk := false, no_bulge := false, no_agn := false,
    verbose_model := false }

/-- Builder with no suppression whose survey yields zero flux. -/
def wZeroFluxBuilder : GalaxyBuilder :=
  { survey := fun _ => 0, no_disk := false, no_bulge := false, no_agn := false,
    verbose_model := false }

/-- Fully populated catalog row used by witnesses: fluxnorm fractions
0.6/0.3/0.1, equal position angles, semi-axes 2 and 1. -/
def wEntry : Entry := mkEntry
  [(rBand ++ abSuffix, 20), (fldFluxnormDisk, 3 / 5), (fldFluxnormBulge, 3 / 10),
   (fldFluxnormAgn, 1 / 10), (fldPaDisk, 45), (fldPaBulge, 45),
   (fldAD, 2), (fldBD, 1), (fldAB, 2), (fldBB, 1), (fldId, 7), (fldRedshift, 1)]

/-- Catalog row whose fluxnorm fractions sum to zero. -/
def wEntryZeroSum : Entry := mkEntry
  [(rBand ++ abSuffix, 20), (fldFluxnormDisk, 1), (fldFluxnormBulge, -1),
   (fldFluxnormAgn, 0)]

/-- Character-list matching: does the first list start the second? -/
def listStarts : List Char → List Char → Bool
  | [], _ => true
  | _ :: _, [] => false
  | a :: as, b :: bs => a == b && listStarts as bs

/-- Substring test on character lists. -/
def listHas (sub : List Char) : List Char → Bool
  | [] => listStarts sub []
  | b :: bs => listStarts sub (b :: bs) || listHas sub bs

/-- Substring test on strings: does `s` contain `sub`? -/
def strHas (s sub : String) : Bool := listHas sub.toList s.toList

def percentS : String := "%s"

def dashBand : String := "-band"

def gBand : String := "g"

def iBand : String := "i"

def zBand : String := "z"

def yBand : String := "y"

/-- The six LSST filter bands accepted by `from_catalog`. -/
def lsstBands : List String := [uBand, gBand, rBand, iBand, zBand, yBand]

/-! Helper lemmas shared by the claim theorems. -/

@[simp] theorem except_bind_ok {α β ε : Type} (x : α) (f : α → Except ε β) :
    (Except.ok x >>= f : Except ε β) = f x := rfl

@[simp] theorem except_bind_error {α β ε : Type} (e : ε) (f : α → Except ε β) :
    (Except.error e >>= f : Except ε β) = Except.error e := rfl

@[simp] theorem except_pure_eq {α ε : Type} (x : α) :
    (pure x : Except ε α) = Except.ok x := rfl

@[simp] theorem except_map_ok_eq {α β ε : Type} (f : α → β) (x : α) :
    (f <$> (Except.ok x : Except ε α) : Except ε β) = Except.ok (f x) := rfl

@[simp] theorem except_map_error_eq {α β ε : Type} (f : α → β) (e : ε) :
    (f <$> (Except.error e : Except ε α) : Except ε β) = Except.error e := rfl

/-- Closed form of the flux-splitting phase: when the three fluxnorm fields
are present, the result is a `ZeroDivisionError` exactly when their sum is
zero and at least one component is unsuppressed, and otherwise each
component's flux is `fluxnorm / sum * total_flux` (or `0` when
suppressed). -/
theorem resolvedFluxes_spec (self : GalaxyBuilder) (e : Entry) (tf fnd fnb fna : ℚ)
    (hd : e fldFluxnormDisk = some fnd) (hb : e fldFluxnormBulge = some fnb)
    (ha : e fldFluxnormAgn = some fna) :
    resolvedFluxes self e tf =
      if fnd + fnb + fna = 0 then
        (if self.no_disk && self.no_bulge && self.no_agn then
          Except.ok (0, 0, 0)
        else Except.error PyError.zeroDivisionError)
      else Except.ok
        ((if self.no_disk then 0 else fnd / (fnd + fnb + fna) * tf),
         (if self.no_bulge then 0 else fnb / (fnd + fnb + fna) * tf),
         (if self.no_agn then 0 else fna / (fnd + fnb + fna) * tf)) := by
  obtain ⟨sv, nd, nb, na, vm⟩ := self
  by_cases hS : fnd + fnb + fna = 0 <;>
    cases nd <;> cases nb <;> cases na <;>
      simp [resolvedFluxes, getField, pydiv, hd, hb, ha, hS]

/-- C1: whenever the flux-splitting phase of `from_catalog` succeeds and the
three resolved component fluxes sum to exactly zero, `from_catalog` returns
the not-visible signal: `Except.ok BuildResult.notVisible`, neither a
`Galaxy` nor an error. -/
theorem c1_zero_resolved_flux_not_visible (self : GalaxyBuilder) (mops : MathOps)
    (e : Entry) (dx dy ab : ℚ) (band : String) (d b a : ℚ)
    (hband : e (band ++ abSuffix) = some ab)
    (hflux : resolvedFluxes self e (self.survey ab) = Except.ok (d, b, a))
    (hsum : d + b + a = 0) :
    from_catalog self mops e dx dy band = Except.ok BuildResult.notVisible := by
  simp [from_catalog, hband, hflux, hsum]

/-- Witness for C1: a concrete row whose survey flux is zero resolves all
three component fluxes to zero and yields the not-visible signal. -/
theorem c1_witness :
    from_catalog wZeroFluxBuilder idMathOps wEntry 0 0 rBand
      = Except.ok BuildResult.notVisible := by
  refine c1_zero_resolved_flux_not_visible wZeroFluxBuilder idMathOps wEntry 0 0 20
    rBand 0 0 0 ?_ ?_ (by norm_num)
  · simp [wEntry, mkEntry]
  · simp [wZeroFluxBuilder, resolvedFluxes, wEntry, mkEntry, getField, pydiv,
      fldFluxnormDisk, fldFluxnormBulge, fldFluxnormAgn, rBand, abSuffix]
    norm_num

/-- C2: when the three fluxnorm fractions have a nonzero sum, the
flux-splitting phase of `from_catalog` resolves each unsuppressed component
flux as `fraction / sum * total_flux` and each suppressed component flux as
exactly `0`. -/
theorem c2_flux_splitting (self : GalaxyBuilder) (e : Entry) (tf fnd fnb fna : ℚ)
    (hd : e fldFluxnormDisk = some fnd) (hb : e fldFluxnormBulge = some fnb)
    (ha : e fldFluxnormAgn = some fna) (hsum : fnd + fnb + fna ≠ 0) :
    resolvedFluxes self e tf = Except.ok
      ((if self.no_disk then 0 else fnd / (fnd + fnb + fna) * tf),
       (if self.no_bulge then 0 else fnb / (fnd + fnb + fna) * tf),
       (if self.no_agn then 0 else fna / (fnd + fnb + fna) * tf)) := by
  rw [resolvedFluxes_spec self e tf fnd fnb fna hd hb ha, if_neg hsum]

/-- Witness for C2: fractions 0.6/0.3/0.1 with total flux 1000 and no
suppression resolve to disk 600, bulge 300, nucleus 100. -/
theorem c2_witness :
    resolvedFluxes wBuilder wEntry 1000 = Except.ok (600, 300, 100) := by
  have h := c2_flux_splitting wBuilder wEntry 1000 (3 / 5) (3 / 10) (1 / 10)
    (by simp [wEntry, mkEntry, fldFluxnormDisk, fldFluxnormBulge, fldFluxnormAgn, fldPaDisk, fldPaBulge, fldAD, fldBD, fldAB, fldBB, fldId, fldRedshift, rBand, abSuffix])
    (by simp [wEntry, mkEntry, fldFluxnormDisk, fldFluxnormBulge, fldFluxnormAgn, fldPaDisk, fldPaBulge, fldAD, fldBD, fldAB, fldBB, fldId, fldRedshift, rBand, abSuffix])
    (by simp [wEntry, mkEntry, fldFluxnormDisk, fldFluxnormBulge, fldFluxnormAgn, fldPaDisk, fldPaBulge, fldAD, fldBD, fldAB, fldBB, fldId, fldRedshift, rBand, abSuffix])
    (by norm_num)
  rw [h]
  norm_num [wBuilder]

/-- C6: a row lacking the magnitude field for the requested band makes
`from_catalog` fail with the `RuntimeError` data error (no `Galaxy` is
produced), and the builder state survives the failed call unchanged. -/
theorem c6_missing_band_field (self : GalaxyBuilder) (mops : MathOps) (e : Entry)
    (dx dy : ℚ) (band : String)
    (hband : e (band ++ abSuffix) = none) :
    from_catalog_call self mops e dx dy band
      = (Except.error (PyError.runtimeError missingBandMsg), self) := by
  simp [from_catalog_call, from_catalog, hband]

/-- Witness for C6: requesting the u band on a row that only has an r-band
magnitude raises the data error. -/
theorem c6_witness :
    from_catalog_call wBuilder idMathOps wEntry 0 0 uBand
      = (Except.error (PyError.runtimeError missingBandMsg), wBuilder) := by
  refine c6_missing_band_field wBuilder idMathOps wEntry 0 0 uBand ?_
  simp [wEntry, mkEntry, uBand, rBand, abSuffix, fldFluxnormDisk, fldFluxnormBulge,
    fldFluxnormAgn, fldPaDisk, fldPaBulge, fldAD, fldBD, fldAB, fldBB, fldId,
    fldRedshift]

/-- C9: a row whose three fluxnorm fractions sum to exactly zero, under a
configuration that leaves at least one component unsuppressed, makes
`from_catalog` fail with `ZeroDivisionError`: the unguarded division by the
zero sum happens before the visibility check, which is never reached. -/
theorem c9_zero_fluxnorm_sum_division_error (self : GalaxyBuilder) (mops : MathOps)
    (e : Entry) (dx dy ab : ℚ) (band : String) (fnd fnb fna : ℚ)
    (hband : e (band ++ abSuffix) = some ab)
    (hd : e fldFluxnormDisk = some fnd) (hb : e fldFluxnormBulge = some fnb)
    (ha : e fldFluxnormAgn = some fna)
    (hsum : fnd + fnb + fna = 0)
    (hflags : ¬(self.no_disk = true ∧ self.no_bulge = true ∧ self.no_agn = true)) :
    from_catalog self mops e dx dy band = Except.error PyError.zeroDivisionError := by
  have h := resolvedFluxes_spec self e (self.survey ab) fnd fnb fna hd hb ha
  rw [if_pos hsum] at h
  have hflags' : (self.no_disk && self.no_bulge && self.no_agn) = false := by
    cases hnd : self.no_disk <;> cases hnb : self.no_bulge <;>
      cases hna : self.no_agn <;> simp_all
  rw [hflags'] at h
  simp only [Bool.false_eq_true, if_false] at h
  simp [from_catalog, hband, h]

/-- Witness for C9: fractions 1, -1, 0 sum to zero and the unsuppressed
configuration raises `ZeroDivisionError`. -/
theorem c9_witness :
    from_catalog wBuilder idMathOps wEntryZeroSum 0 0 rBand
      = Except.error PyError.zeroDivisionError := by
  refine c9_zero_fluxnorm_sum_division_error wBuilder idMathOps wEntryZeroSum 0 0 20
    rBand 1 (-1) 0 ?_ ?_ ?_ ?_ (by norm_num) (by simp [wBuilder])
  · simp [wEntryZeroSum, mkEntry]
  · simp [wEntryZeroSum, mkEntry, fldFluxnormDisk, rBand, abSuffix]
  · simp [wEntryZeroSum, mkEntry, fldFluxnormBulge, fldFluxnormDisk, rBand, abSuffix]
  · simp [wEntryZeroSum, mkEntry, fldFluxnormAgn, fldFluxnormBulge, fldFluxnormDisk,
      rBand, abSuffix]

/-- When the flux-splitting phase succeeds with positive disk and bulge
fluxes, the three resolved fluxes cannot sum to zero: either the nucleus is
suppressed (the sum is the two positive fluxes) or the sum equals the total
flux, which must be nonzero for the disk flux to be positive. -/
theorem resolvedFluxes_pos_sum_ne_zero (self : GalaxyBuilder) (e : Entry)
    (tf d b a : ℚ)
    (h : resolvedFluxes self e tf = Except.ok (d, b, a))
    (hd : 0 < d) (hb : 0 < b) : d + b + a ≠ 0 := by
  cases hfd : e fldFluxnormDisk with
  | none => simp [resolvedFluxes, getField, hfd] at h
  | some fnd =>
  cases hfb : e fldFluxnormBulge with
  | none => simp [resolvedFluxes, getField, hfd, hfb] at h
  | some fnb =>
  cases hfa : e fldFluxnormAgn with
  | none => simp [resolvedFluxes, getField, hfd, hfb, hfa] at h
  | some fna =>
  rw [resolvedFluxes_spec self e tf fnd fnb fna hfd hfb hfa] at h
  by_cases hS : fnd + fnb + fna = 0
  · rw [if_pos hS] at h
    by_cases hall : (self.no_disk && self.no_bulge && self.no_agn) = true
    · rw [if_pos hall] at h
      simp only [Except.ok.injEq, Prod.mk.injEq] at h
      obtain ⟨hd0, _, _⟩ := h
      rw [← hd0] at hd
      exact absurd hd (lt_irrefl 0)
    · rw [if_neg hall] at h
      exact absurd h (by simp)
  · rw [if_neg hS] at h
    simp only [Except.ok.injEq, Prod.mk.injEq] at h
    obtain ⟨hd_eq, hb_eq, ha_eq⟩ := h
    by_cases hnd : self.no_disk = true
    · rw [if_pos hnd] at hd_eq
      rw [← hd_eq] at hd
      exact absurd hd (lt_irrefl 0)
    rw [if_neg hnd] at hd_eq
    by_cases hnb : self.no_bulge = true
    · rw [if_pos hnb] at hb_eq
      rw [← hb_eq] at hb
      exact absurd hb (lt_irrefl 0)
    rw [if_neg hnb] at hb_eq
    by_cases hna : self.no_agn = true
    · rw [if_pos hna] at ha_eq
      intro hc
      rw [← ha_eq] at hc
      linarith
    · rw [if_neg hna] at ha_eq
      intro hc
      have hsum_tf : d + b + a = tf := by
        rw [← hd_eq, ← hb_eq, ← ha_eq]
        field_simp
        ring
      rw [hsum_tf] at hc
      rw [hc, mul_zero] at hd_eq
      rw [← hd_eq] at hd
      exact absurd hd (lt_irrefl 0)

/-- C3: with both resolved extended fluxes positive, the position-angle
resolution of `from_catalog` yields `radians(pa_disk)` when the two catalog
angles agree, and the whole call fails with the `AssertionError`
data-consistency error (returning no `Galaxy`) when they differ; with
exactly one extended component flux-positive it uses that component's
catalog angle. -/
theorem c3_position_angle (self : GalaxyBuilder) (mops : MathOps) (e : Entry)
    (dx dy ab : ℚ) (band : String) (d b a θd θb : ℚ)
    (hband : e (band ++ abSuffix) = some ab)
    (hflux : resolvedFluxes self e (self.survey ab) = Except.ok (d, b, a))
    (hpd : e fldPaDisk = some θd) (hpb : e fldPaBulge = some θb) :
    (0 < d → 0 < b → θd = θb →
      resolveBeta mops e d b = Except.ok (some (mops.radians θd)))
    ∧ (0 < d → 0 < b → θd ≠ θb →
      from_catalog self mops e dx dy band
        = Except.error (PyError.assertionError assertBetaMsg))
    ∧ (0 < d → b ≤ 0 →
      resolveBeta mops e d b = Except.ok (some (mops.radians θd)))
    ∧ (d ≤ 0 → 0 < b →
      resolveBeta mops e d b = Except.ok (some (mops.radians θb))) := by
  refine ⟨?_, ?_, ?_, ?_⟩
  · intro hd hb heq
    simp [resolveBeta, getField, hpd, hpb, hd, hb, heq]
  · intro hd hb hne
    have hsum := resolvedFluxes_pos_sum_ne_zero self e (self.survey ab) d b a hflux hd hb
    have hbeta : resolveBeta mops e d b
        = Except.error (PyError.assertionError assertBetaMsg) := by
      simp [resolveBeta, getField, hpd, hpb, hd, hb, hne]
    simp [from_catalog, hband, hflux, hsum, hbeta]
  · intro hd hb0
    have hb' : ¬ 0 < b := not_lt.mpr hb0
    simp [resolveBeta, getField, hpd, hd, hb']
  · intro hd0 hb
    have hd' : ¬ 0 < d := not_lt.mpr hd0
    simp [resolveBeta, getField, hpb, hd', hb]

/-- Witness for C3: on the concrete row with equal position angles 45 and
resolved fluxes 600/300, the resolved angle is radians(45). -/
theorem c3_witness :
    resolveBeta idMathOps wEntry 600 300 = Except.ok (some 45) := by
  have h := (c3_position_angle wBuilder idMathOps wEntry 0 0 20 rBand 600 300 100 45 45
    (by simp [wEntry, mkEntry])
    (by
      simp [wBuilder, resolvedFluxes, wEntry, mkEntry, getField, pydiv,
        fldFluxnormDisk, fldFluxnormBulge, fldFluxnormAgn, fldPaDisk, fldPaBulge,
        fldAD, fldBD, fldAB, fldBB, fldId, fldRedshift, rBand, abSuffix]
      norm_num)
    (by simp [wEntry, mkEntry, fldFluxnormDisk, fldFluxnormBulge, fldFluxnormAgn,
      fldPaDisk, fldPaBulge, rBand, abSuffix])
    (by simp [wEntry, mkEntry, fldFluxnormDisk, fldFluxnormBulge, fldFluxnormAgn,
      fldPaDisk, fldPaBulge, rBand, abSuffix])).1
    (by norm_num) (by norm_num) rfl
  simpa [idMathOps] using h

/-- C4: a flux-positive extended component with catalog semi-axes a and b
gets half-light radius `sqrt(a*b)` and axis ratio `b/a`; an extended
component with zero resolved flux has both shape parameters `None`, and its
catalog semi-axis fields are never read: the result is the same for every
row, including one with no fields at all. -/
theorem c4_shape_derivation (mops : MathOps) (e e0 : Entry) (fd fb : ℚ)
    (ad bd abv bbv θb : ℚ) :
    (0 < fd → e fldAD = some ad → e fldBD = some bd → ad ≠ 0 →
      diskShape mops e fd = Except.ok (some (mops.sqrt (ad * bd)), some (bd / ad)))
    ∧ (0 < fb → e fldAB = some abv → e fldBB = some bbv → e fldPaBulge = some θb →
      abv ≠ 0 →
      bulgeShape mops e fb = Except.ok (some (mops.sqrt (abv * bbv)), some (bbv / abv)))
    ∧ (fd = 0 → diskShape mops e0 fd = Except.ok (none, none))
    ∧ (fb = 0 → bulgeShape mops e0 fb = Except.ok (none, none)) := by
  refine ⟨?_, ?_, ?_, ?_⟩
  · intro hf ha hb hnz
    simp [diskShape, getField, pydiv, hf, ha, hb, hnz]
  · intro hf ha hb hpa hnz
    simp [bulgeShape, getField, pydiv, hf, ha, hb, hpa, hnz]
  · intro h0
    simp [diskShape, h0]
  · intro h0
    simp [bulgeShape, h0]

/-- Witness for C4: the concrete disk with semi-axes 2 and 1 and flux 600
gets half-light radius sqrt(2) and axis ratio 1/2. -/
theorem c4_witness :
    diskShape idMathOps wEntry 600
      = Except.ok (some (idMathOps.sqrt 2), some (1 / 2)) := by
  have h := (c4_shape_derivation idMathOps wEntry wEntry 600 300 2 1 2 1 45).1
    (by norm_num)
    (by simp [wEntry, mkEntry, fldAD, fldBD, fldFluxnormDisk, fldFluxnormBulge,
      fldFluxnormAgn, fldPaDisk, fldPaBulge, rBand, abSuffix])
    (by simp [wEntry, mkEntry, fldAD, fldBD, fldFluxnormDisk, fldFluxnormBulge,
      fldFluxnormAgn, fldPaDisk, fldPaBulge, rBand, abSuffix])
    (by norm_num)
  norm_num at h
  exact h

/-- C5: constructing a `GalaxyBuilder` with all three suppression flags true
fails immediately, at construction time, with the configuration
`RuntimeError`; any other flag combination succeeds and stores the
configuration unchanged. -/
theorem c5_builder_construction (survey : ℚ → ℚ) (nd nb na vm : Bool) :
    (nd = true ∧ nb = true ∧ na = true →
      galaxyBuilderInit survey nd nb na vm
        = Except.error (PyError.runtimeError mustBuildMsg))
    ∧ (¬(nd = true ∧ nb = true ∧ na = true) →
      galaxyBuilderInit survey nd nb na vm
        = Except.ok { survey := survey, no_disk := nd, no_bulge := nb,
                      no_agn := na, verbose_model := vm }) := by
  constructor
  · rintro ⟨h1, h2, h3⟩
    simp [galaxyBuilderInit, h1, h2, h3]
  · intro hnot
    have hfalse : (nd && nb && na) = false := by
      cases nd <;> cases nb <;> cases na <;> simp_all
    simp [galaxyBuilderInit, hfalse]

/-- Witness for C5: all three flags true is rejected at construction. -/
theorem c5_witness :
    galaxyBuilderInit (fun _ => 1000) true true true false
      = Except.error (PyError.runtimeError mustBuildMsg) :=
  (c5_builder_construction (fun _ => 1000) true true true false).1 ⟨rfl, rfl, rfl⟩

/-- C7: the composite profile built by `Galaxy.__init__` contains exactly
the components whose flux argument is strictly positive — disk and bulge
sheared by their axis ratio and the shared position angle, nucleus an
unsheared narrow Gaussian — in that order, and the whole sum is shifted by
the centroid offsets; the shape arguments of a component with flux ≤ 0 do
not appear in the result. -/
theorem c7_composite_components (identifier redshift dx dy βv dhv dqv bhv bqv : ℚ)
    (df bf af : ℚ) (beta dh dq bh bq : Option ℚ)
    (hbeta : 0 < df ∨ 0 < bf → beta = some βv)
    (hdh : 0 < df → dh = some dhv) (hdq : 0 < df → dq = some dqv)
    (hbh : 0 < bf → bh = some bhv) (hbq : 0 < bf → bq = some bqv) :
    galaxyInit identifier redshift dx dy beta df dh dq bf bh bq af
      = Except.ok
          { identifier := identifier, redshift := redshift,
            dx_arcsecs := dx, dy_arcsecs := dy,
            model := GSProfile.shift (GSProfile.add (
              (if 0 < df then
                [GSProfile.shear (GSProfile.exponential df dhv) dqv βv] else [])
              ++ (if 0 < bf then
                [GSProfile.shear (GSProfile.deVaucouleurs bf bhv) bqv βv] else [])
              ++ (if 0 < af then [GSProfile.gaussian af agnSigma] else [])))
              dx dy } := by
  by_cases hdf : 0 < df <;> by_cases hbf : 0 < bf
  · simp [galaxyInit, reqArg, hdf, hbf, hdh hdf, hdq hdf, hbh hbf, hbq hbf,
      hbeta (Or.inl hdf)]
  · simp [galaxyInit, reqArg, hdf, hbf, hdh hdf, hdq hdf, hbeta (Or.inl hdf)]
  · simp [galaxyInit, reqArg, hdf, hbf, hbh hbf, hbq hbf, hbeta (Or.inr hbf)]
  · simp [galaxyInit, reqArg, hdf, hbf]

/-- Witness for C7: three positive-flux components assemble into the
three-element sheared-and-shifted composite. -/
theorem c7_witness :
    galaxyInit 7 1 2 3 (some 4) 10 (some 5) (some 6) 20 (some 8) (some 9) 30
      = Except.ok
          { identifier := 7, redshift := 1, dx_arcsecs := 2, dy_arcsecs := 3,
            model := GSProfile.shift (GSProfile.add
              [GSProfile.shear (GSProfile.exponential 10 5) 6 4,
               GSProfile.shear (GSProfile.deVaucouleurs 20 8) 9 4,
               GSProfile.gaussian 30 agnSigma]) 2 3 } := by
  have h := c7_composite_components 7 1 2 3 4 5 6 8 9 10 20 30 (some 4) (some 5)
    (some 6) (some 8) (some 9) (fun _ => rfl) (fun _ => rfl) (fun _ => rfl)
    (fun _ => rfl) (fun _ => rfl)
  norm_num at h
  exact h

/-- C8: `from_catalog` is deterministic and never mutates the builder: the
builder state after any call equals the state before it (survey reference
and all four flags included), and a second identical call made on the
post-call state returns the same outcome as the first. -/
theorem c8_deterministic_stateless (self : GalaxyBuilder) (mops : MathOps)
    (e : Entry) (dx dy : ℚ) (band : String) :
    (from_catalog_call self mops e dx dy band).2 = self
    ∧ (from_catalog_call self mops e dx dy band).2.survey = self.survey
    ∧ (from_catalog_call self mops e dx dy band).2.no_disk = self.no_disk
    ∧ (from_catalog_call self mops e dx dy band).2.no_bulge = self.no_bulge
    ∧ (from_catalog_call self mops e dx dy band).2.no_agn = self.no_agn
    ∧ (from_catalog_call self mops e dx dy band).2.verbose_model = self.verbose_model
    ∧ (from_catalog_call ((from_catalog_call self mops e dx dy band).2)
        mops e dx dy band).1
        = (from_catalog_call self mops e dx dy band).1 :=
  ⟨rfl, rfl, rfl, rfl, rfl, rfl, rfl⟩

/-- Counterexample for C10: at band u the raised message does contain the
requested band's name — the letter u occurs among the fixed words of the
message (for instance in the word value) — so the claim that the error
message never contains the requested band's name fails as stated. -/
theorem c10_counterexample :
    from_catalog wBuilder idMathOps wEntry 0 0 uBand
      = Except.error (PyError.runtimeError missingBandMsg)
    ∧ strHas missingBandMsg uBand = true := by
  constructor
  · have hnone : wEntry (uBand ++ abSuffix) = none := by
      simp [wEntry, mkEntry, uBand, rBand, abSuffix, fldFluxnormDisk,
        fldFluxnormBulge, fldFluxnormAgn, fldPaDisk, fldPaBulge, fldAD, fldBD,
        fldAB, fldBB, fldId, fldRedshift]
    simp [from_catalog, hnone]
  · rfl

/-- C10 amended: the missing-band error is raised with the literal format
string, the percent-s placeholder never interpolated: the message contains
the uninterpolated placeholder and, for every LSST band, does not contain
the interpolated band name followed by the dash-band suffix (although a
single-letter band name may occur incidentally in the fixed words of the
message). -/
theorem c10_amended_uninterpolated (self : GalaxyBuilder) (mops : MathOps)
    (e : Entry) (dx dy : ℚ) (band : String)
    (hband : e (band ++ abSuffix) = none) :
    from_catalog self mops e dx dy band
      = Except.error (PyError.runtimeError missingBandMsg)
    ∧ strHas missingBandMsg percentS = true
    ∧ (band ∈ lsstBands → strHas missingBandMsg (band ++ dashBand) = false) := by
  refine ⟨by simp [from_catalog, hband], rfl, ?_⟩
  intro hmem
  simp only [lsstBands, List.mem_cons, List.not_mem_nil, or_false] at hmem
  rcases hmem with rfl | rfl | rfl | rfl | rfl | rfl <;> rfl

/-- Witness for C10 amended, at band u on a row with no u-band magnitude. -/
theorem c10_amended_witness :
    from_catalog wBuilder idMathOps wEntry 0 0 uBand
      = Except.error (PyError.runtimeError missingBandMsg)
    ∧ strHas missingBandMsg percentS = true
    ∧ (uBand ∈ lsstBands → strHas missingBandMsg (uBand ++ dashBand) = false) := by
  refine c10_amended_uninterpolated wBuilder idMathOps wEntry 0 0 uBand ?_
  simp [wEntry, mkEntry, uBand, rBand, abSuffix, fldFluxnormDisk, fldFluxnormBulge,
    fldFluxnormAgn, fldPaDisk, fldPaBulge, fldAD, fldBD, fldAB, fldBB, fldId,
    fldRedshift]
